import Mathlib

/-!
A verification development for the abaverify test harness (`abaverify/main.py`,
Python 2). Each Python function relevant to the verified properties is given a
shallow embedding below; strings are modelled as `List Char`, Python numbers as
`ℚ`, and raised exceptions as the `error` side of `Except`.
-/

namespace Abaverify

abbrev Str := List Char

/-- A Python value as it appears in a result record produced by
`processresults.py`: a number, a tuple, or a list.  Structural equality on
this type coincides with Python `==` on these shapes (numbers compare by
value, tuples and lists compare elementwise, a tuple never equals a list). -/
inductive PyVal where
  | num (q : ℚ)
  | tup (xs : List PyVal)
  | list (xs : List PyVal)

mutual

/-- Python 2 `==` on record values: numbers compare by value, tuples and
lists compare elementwise, and values of different shapes are unequal
(in particular a tuple never equals a list). -/
def pyEq : PyVal → PyVal → Bool
  | .num a, .num b => a == b
  | .tup as, .tup bs => pyEqList as bs
  | .list as, .list bs => pyEqList as bs
  | _, _ => false

/-- Elementwise Python `==` on sequences of equal length. -/
def pyEqList : List PyVal → List PyVal → Bool
  | [], [] => true
  | a :: as, b :: bs => pyEq a b && pyEqList as bs
  | _, _ => false

end

/-- A raised Python exception, as far as the verified properties need to
distinguish them.  `failure none` stands for a unittest `failureException`
carrying a generated message that is not modelled; `failure (some m)` is a
`failureException` whose message `m` appears literally in the source
(`self.fail(...)`). -/
inductive PyErr where
  | keyError (k : Str)
  | indexError
  | typeError
  | ioError
  | osError
  | failure (msg : Option Str)
deriving DecidableEq

/-- One entry of the `results` list of a `<jobName>_results.py` file.
`computedValue` is always present in the dictionary; `referenceValue` and
`tolerance` may be absent (`none`), in which case indexing them raises
`KeyError`. -/
structure ResultRecord where
  computedValue : PyVal
  referenceValue : Option PyVal
  tolerance : Option PyVal

/-- Python `v[i]`: indexing a number raises `TypeError`, indexing a tuple or
list out of bounds raises `IndexError`. -/
def pyGetItem (v : PyVal) (i : Nat) : Except PyErr PyVal :=
  match v with
  | .num _ => .error .typeError
  | .tup xs | .list xs =>
    match xs.get? i with
    | some x => .ok x
    | none => .error .indexError

/-- Python `len(v)`: `TypeError` on a number. -/
def pyLen (v : PyVal) : Except PyErr Nat :=
  match v with
  | .num _ => .error .typeError
  | .tup xs | .list xs => .ok xs.length

/-- The elements of a tuple or list.  Only applied after `pyLen` succeeded,
so the `num` case is unreachable there. -/
def pyElems : PyVal → List PyVal
  | .num _ => []
  | .tup xs | .list xs => xs

/-- Python 2 `x <= delta` where `x` is a number: numeric comparison when
`delta` is a number; in Python 2 a number compares less than any non-number,
so the comparison is `True` when `delta` is a tuple or list. -/
def pyLeQ (x : ℚ) (delta : PyVal) : Bool :=
  match delta with
  | .num t => decide (x ≤ t)
  | _ => true

/-- `unittest.TestCase.assertAlmostEqual(first, second, delta=delta)`:
returns normally when `first == second` (shortcut taken before the delta
test) or when `abs(first - second) <= delta`; `first - second` raises
`TypeError` unless both are numbers; otherwise the assertion fails. -/
def assertAlmostEqualDelta (first second delta : PyVal) : Except PyErr Unit :=
  if pyEq first second then .ok ()
  else
    match first, second with
    | .num a, .num b => if pyLeQ |a - b| delta then .ok () else .error (.failure none)
    | _, _ => .error .typeError

/-- `unittest.TestCase.assertEqual(first, second)`. -/
def assertEqualVal (first second : PyVal) : Except PyErr Unit :=
  if pyEq first second then .ok () else .error (.failure none)

/-- The componentwise loop `for (cv, rv, tolerance) in zip(...)` with an
`assertAlmostEqual` per component; `zip` truncates to the shortest input and
the first failing assertion aborts the loop. -/
def checkTriples : List PyVal → List PyVal → List PyVal → Except PyErr Unit
  | c :: cs, r :: rs, t :: ts =>
    match assertAlmostEqualDelta c r t with
    | .ok _ => checkTriples cs rs ts
    | .error e => .error e
  | _, _, _ => .ok ()

/-- The body of the `for i in range(0, len(r['computedValue']))` loop of
`TestCase._runAssertionsOnResults` for one index `i`, mirroring the source
statement by statement (including evaluation order of the dictionary
lookups, which determines which `KeyError` is raised first). -/
def seqElemCheck (r : ResultRecord) (i : Nat) : Except PyErr Unit :=
  match pyGetItem r.computedValue i with
  | .error e => .error e
  | .ok computed_val =>
    match r.referenceValue with
    | none => .error (.keyError "referenceValue".data)
    | some refv =>
      match pyGetItem refv i with
      | .error e => .error e
      | .ok reference_val =>
        match reference_val with
        | .tup rv =>
          -- tolerance_for_result_obj = r['tolerance']
          match r.tolerance with
          | none => .error (.keyError "tolerance".data)
          | some tolObj =>
            -- assertEqual(len(computed_val), len(reference_val), ...)
            match pyLen computed_val with
            | .error e => .error e
            | .ok lc =>
              if lc ≠ rv.length then .error (.failure none)
              else
                -- tolerance = tolObj if it is a tuple else tolObj[i]
                match (match tolObj with
                       | .tup _ => Except.ok tolObj
                       | _ => pyGetItem tolObj i) with
                | .error e => .error e
                | .ok tolv =>
                  -- assertEqual(len(reference_val), len(tolerance), ...)
                  match pyLen tolv with
                  | .error e => .error e
                  | .ok lt =>
                    if rv.length ≠ lt then .error (.failure none)
                    else checkTriples (pyElems computed_val) rv (pyElems tolv)
        | _ =>
          -- tolerance_for_result_obj = r['tolerance'][i]
          match r.tolerance with
          | none => .error (.keyError "tolerance".data)
          | some tolObj =>
            match pyGetItem tolObj i with
            | .error e => .error e
            | .ok tolv => assertAlmostEqualDelta computed_val reference_val tolv

/-- Runs `seqElemCheck` on each index in turn; the first raised exception or
failed assertion aborts. -/
def checkSeqElems (r : ResultRecord) : List Nat → Except PyErr Unit
  | [] => .ok ()
  | i :: is' =>
    match seqElemCheck r i with
    | .ok _ => checkSeqElems r is'
    | .error e => .error e

/-- The per-record comparison of `TestCase._runAssertionsOnResults`:
sequence-shaped computed values (`hasattr(..., '__iter__')`, true for lists
and tuples) go through the indexed loop; scalar computed values branch on
which of `tolerance` / `referenceValue` are present. -/
def checkRecord (r : ResultRecord) : Except PyErr Unit :=
  match r.computedValue with
  | .num c =>
    match r.tolerance with
    | some tol =>
      match r.referenceValue with
      | some rv => assertAlmostEqualDelta (.num c) rv tol
      | none => .error (.keyError "referenceValue".data)
    | none =>
      match r.referenceValue with
      | some rv => assertEqualVal (.num c) rv
      | none => .ok ()  -- no data to compare with, so pass the test
  | .tup xs | .list xs => checkSeqElems r (List.range xs.length)

/-- `for r in results: ...` — records are checked in order and the first
raised exception aborts the loop (fail-fast). -/
def checkRecords : List ResultRecord → Except PyErr Unit
  | [] => .ok ()
  | r :: rs =>
    match checkRecord r with
    | .ok _ => checkRecords rs
    | .error e => .error e

/-- `os.path.join` with the path separator abstracted as `/`. -/
def pathJoin (a b : Str) : Str := a ++ '/' :: b

/-- The message of the `self.fail` call for an absent structured results
file: `'No results file provided by process_results.py. Looking for "%s"'`
interpolated with the expected path. -/
def missingResultsMsg (path : Str) : Str :=
  "No results file provided by process_results.py. Looking for \"".data ++ path ++ "\"".data

/-- `TestCase._runAssertionsOnResults`: when an external assertion function
`func` was supplied it is called instead of the built-in comparator; else
the structured results file is loaded when present (its parsed `results`
list is `resultsOnDisk`), and its absence fails the test with a message
naming the expected path. -/
def runAssertionsOnResults (cwd jobName : Str) (func : Option (Str → Except PyErr Unit))
    (resultsOnDisk : Option (List ResultRecord)) : Except PyErr Unit :=
  let outputFileName := jobName ++ "_results.py".data
  let outputFileDir := pathJoin cwd "testOutput".data
  let outputFilePath := pathJoin outputFileDir outputFileName
  match func with
  | some f => f jobName
  | none =>
    match resultsOnDisk with
    | some results => checkRecords results
    | none => .error (.failure (some (missingResultsMsg outputFilePath)))

/-! ### Run-time instrumentation (`_measureRunTimes`) -/

/-- The mutable attributes of a `_measureRunTimes` instance; every field is
initialised to `None` by `__init__`. -/
structure TimerState where
  Compile_start : Option ℚ
  Compile_end : Option ℚ
  packager_start : Option ℚ
  packager_end : Option ℚ
  solver_start : Option ℚ
  solver_end : Option ℚ
deriving DecidableEq

def initTimer : TimerState := ⟨none, none, none, none, none, none⟩

/-- `re.search` of a plain substring: does `pat` occur anywhere in `s`? -/
def containsSub (pat s : Str) : Bool :=
  (List.range (s.length + 1)).any fun i => pat.isPrefixOf (s.drop i)

/-- A duration written to the diagnostic stream on closing a phase (the
two-decimal formatting of the printed text is not modelled, the reported
duration is). -/
inductive Report where
  | compileTime (d : ℚ)
  | packageTime (d : ℚ)
  | solverTime (d : ℚ)
deriving DecidableEq

/-- `_measureRunTimes.processLine`, with the wall clock passed in as `now`
(the value `time.time()` returns during the call).  `re.match(pat, line)`
anchors at the start of the line, `re.search('.*pat.*', line)` looks for the
marker anywhere.  When an end marker arrives while the matching start
attribute is still `None`, the source computes `time.time() - None`, which
raises `TypeError` in Python 2 (the end attribute has already been assigned
at that point; the partially updated object is unobservable because the
exception propagates out of the caller). -/
def processLine (s : TimerState) (line : Str) (now : ℚ) :
    Except PyErr (TimerState × Option Report) :=
  if "Begin Linking".data.isPrefixOf line then
    .ok ({ s with Compile_start := some now }, none)
  else if "End Linking".data.isPrefixOf line then
    match s.Compile_start with
    | some t0 => .ok ({ s with Compile_end := some now }, some (.compileTime (now - t0)))
    | none => .error .typeError
  else if "Begin Abaqus/Explicit Packager".data.isPrefixOf line then
    .ok ({ s with packager_start := some now }, none)
  else if "End Abaqus/Explicit Packager".data.isPrefixOf line then
    match s.packager_start with
    | some t0 => .ok ({ s with packager_end := some now }, some (.packageTime (now - t0)))
    | none => .error .typeError
  else if "Begin Abaqus/Explicit Analysis".data.isPrefixOf line then
    .ok ({ s with solver_start := some now }, none)
  else if ("End Abaqus/Explicit Analysis".data.isPrefixOf line
        || containsSub "Abaqus/Explicit Analysis exited with an error".data line) then
    match s.solver_start with
    | some t0 => .ok ({ s with solver_end := some now }, some (.solverTime (now - t0)))
    | none => .error .typeError
  else .ok (s, none)

/-- Feeds a stream of (line, arrival time) pairs through `processLine`,
collecting the reported durations in order; a raised exception aborts. -/
def processLines (s : TimerState) : List (Str × ℚ) → Except PyErr (TimerState × List Report)
  | [] => .ok (s, [])
  | (l, t) :: rest =>
    match processLine s l t with
    | .error e => .error e
    | .ok (s', rep) =>
      match processLines s' rest with
      | .error e => .error e
      | .ok (s'', reps) =>
        .ok (s'', match rep with | some rp => rp :: reps | none => reps)

/-! ### Line streamer (`_outputStreamer`)

The generator reads one character at a time; `newlines = ['\n', '\r\n', '\r']`
but `last` always holds a single character, so the two-character entry can
never test equal and only `'\n'` and `'\r'` act as delimiters.  The claims
concern a terminated process, so the model is a finite character stream
after which every read returns the empty string with `proc.poll()`
non-`None`. -/

/-- The streaming loop: `out` is the inner loop's accumulator, the second
argument the remaining characters of the stream.  On end of stream inside
the inner loop the partial line is yielded and the outer loop then stops;
on a delimiter the line is yielded and the outer loop starts over. -/
def streamAux : Str → Str → List Str
  | out, [] => [out]
  | out, c :: rest =>
    if c = '\n' ∨ c = '\r' then
      out :: (if rest.isEmpty then [] else streamAux [] rest)
    else streamAux (out ++ [c]) rest

/-- `_outputStreamer` on a terminated process: the full (finite) list of
yielded lines.  An empty stream yields nothing (the outer loop breaks on
its first read). -/
def streamLines (s : Str) : List Str :=
  if s.isEmpty then [] else streamAux [] s

/-- Modelled from the spec: the line splitting the specification describes
for the streamer, in which `\n`, `\r\n` and `\r` are each one delimiter, so
that a `\r\n` pair terminates a single line without introducing an extra
empty line.  (Used only to compare the source behaviour against the spec's
words.) -/
def splitSpecAux : Str → Str → List Str
  | out, [] => [out]
  | out, '\r' :: '\n' :: rest =>
    out :: (if rest.isEmpty then [] else splitSpecAux [] rest)
  | out, c :: rest =>
    if c = '\n' ∨ c = '\r' then
      out :: (if rest.isEmpty then [] else splitSpecAux [] rest)
    else splitSpecAux (out ++ [c]) rest

/-- Modelled from the spec: `streamLines` as the spec describes it. -/
def splitLinesSpec (s : Str) : List Str :=
  if s.isEmpty then [] else splitSpecAux [] s

/-! ### Parametric test-matrix generator (`ParametricMetaClass.__new__`)

Parameter dictionaries are modelled as association lists in iteration
order: `dict(it.izip(parameters, x)) for x in it.product(*parameters.itervalues())`
zips the keys, in that same order, with each element of the Cartesian
product, in which the leftmost domain varies slowest.  Parameter values are
modelled by their `str(...)` rendering. -/

/-- The list of parameter combinations, one per element of the Cartesian
product of the domains. -/
def testCombos : List (Str × List Str) → List (List (Str × Str))
  | [] => [[]]
  | (k, d) :: ps => (d.map (fun v => (testCombos ps).map (fun c => (k, v) :: c))).flatten

/-- Python `'_'.join`. -/
def joinU : List Str → Str
  | [] => []
  | [x] => x
  | x :: y :: rest => x ++ '_' :: joinU (y :: rest)

/-- `'%s_%s' % (key, value)` — note the separator between key and value is
an underscore. -/
def tokenKV (kv : Str × Str) : Str := kv.1 ++ '_' :: kv.2

/-- The name of one generated test case:
`pn = '_'.join(...)`, then `re.sub('[.]', '', pn)` deletes every period from
the parameter portion, and the name is `baseName + '_' + pn`. -/
def caseName (base : Str) (combo : List (Str × Str)) : Str :=
  base ++ '_' :: (joinU (combo.map tokenKV)).filter (fun c => c ≠ '.')

/-- The names of all generated test cases, in generation order. -/
def genTestCaseNames (base : Str) (params : List (Str × List Str)) : List Str :=
  (testCombos params).map (caseName base)

/-! ### Template substitution (one parameter) -/

/-- `re.search('.{0,}' + p + '.{0,}=.{0,}$', line)` on a line as produced by
`readlines` (a newline occurs only as the final character, and `.` does not
match a newline): some occurrence of `p` is followed, later on the line and
before any newline, by a `=`.  The parameter name is taken literally (the
source interpolates it into the pattern unescaped; parameter names contain
no regex metacharacters). -/
def lineMatches (p line : Str) : Bool :=
  (List.range (line.length + 1)).any fun i =>
    p.isPrefixOf (line.drop i) &&
    ((line.drop (i + p.length)).takeWhile (fun c => c ≠ '\n')).any (fun c => c = '=')

/-- `data[line].split('=')[0] + '= ' + str(parameters[p]) + '\n'`: everything
from the first `=` on is replaced by `= `, the value, and a newline. -/
def rewriteLine (line value : Str) : Str :=
  line.takeWhile (fun c => c ≠ '=') ++ "= ".data ++ value ++ ['\n']

/-- The inner `for line in range(len(data)): ... break` loop for one
parameter `p`: the first line matching `p` is rewritten and the loop breaks;
all other lines are left untouched. -/
def substituteParam (p value : Str) : List Str → List Str
  | [] => []
  | l :: ls =>
    if lineMatches p l then rewriteLine l value :: ls
    else l :: substituteParam p value ls

/-- The outer `for p in parameters.keys()` loop: each parameter is
substituted in turn into the data left by the previous ones. -/
def substituteParams (params : List (Str × Str)) (data : List Str) : List Str :=
  params.foldl (fun d pv => substituteParam pv.1 pv.2 d) data

/-! ### Cleanup of the generated parametric files

The generated test body runs inside `try: ... finally:`; the `finally`
block executes `os.remove(jobName + '.inp')`, then
`os.remove(jobName + '_expected.py')`, then — in the
`pythonScriptForModel` case — `os.remove(jobName + '.py')`, in that order.
`os.remove` on a missing file raises `OSError`, which aborts the rest of
the block.  Only the existence of the three synthesized per-case files is
tracked. -/

structure FS where
  inp : Bool       -- <jobName>.inp
  expected : Bool  -- <jobName>_expected.py
  script : Bool    -- <jobName>.py
deriving DecidableEq

/-- The `finally` block.  Returns the file system it leaves behind together
with the exception it raises, if any; an `OSError` from an earlier
`os.remove` skips the later ones. -/
def cleanup (scriptCase : Bool) (fs : FS) : FS × Option PyErr :=
  if ¬ fs.inp then (fs, some .osError)
  else
    let fs1 := { fs with inp := false }
    if ¬ fs1.expected then (fs1, some .osError)
    else
      let fs2 := { fs1 with expected := false }
      if scriptCase then
        if ¬ fs2.script then (fs2, some .osError)
        else ({ fs2 with script := false }, none)
      else (fs2, none)

/-- The `try` body of a generated parametric test, reduced to its effects on
the three synthesized files and its first raised exception.  In the
`pythonScriptForModel` case the template script is copied to
`<jobName>.py`, the expected-results template to `<jobName>_expected.py`,
and `abaqus cae noGUI=<jobName>.py` is expected to generate
`<jobName>.inp` (`createsInp` records whether it did); `_runModel` then
copies `<jobName>.inp` into `testOutput`, which raises `IOError` when the
input deck was not generated.  In the plain case the input-deck template is
copied to `<jobName>.inp` directly.  Later steps (solver run, assertions)
create none of the synthesized files and are irrelevant to cleanup. -/
def parametricBody (scriptCase createsInp : Bool) : FS × Option PyErr :=
  if scriptCase then
    let fs : FS := { inp := createsInp, expected := true, script := true }
    if createsInp then (fs, none) else (fs, some .ioError)
  else ({ inp := true, expected := true, script := false }, none)

/-- The generated test with its `finally` clause: the body runs first, the
cleanup always runs on the files the body left behind, and (as in Python 2)
an exception raised inside `finally` replaces the body's exception. -/
def runParametricTest (scriptCase createsInp : Bool) : FS × Option PyErr :=
  let bodyRes := parametricBody scriptCase createsInp
  let cleanRes := cleanup scriptCase bodyRes.1
  (cleanRes.1, match cleanRes.2 with | some e => some e | none => bodyRes.2)

/-! ### Per-job expiration override (`TestCase.runTest`, lines 333–338)

`options.expiration` is a field of the process-wide mutable options object:
it starts at the command-line value (default `-1`) and each job executes

    para = __import__(jobName + '_expected').parameters
    if "expiration" in para: options.expiration = para["expiration"]
    if options.expiration < 0: options.expiration = None

`None` is modelled as `none`; in Python 2 `None < 0` is `True`, so a shared
value of `None` stays `None`. -/

/-- One job's update of `options.expiration`: `declared` is the job's own
`expiration` entry if any, `shared` the current value of
`options.expiration`.  The result is both what the job observes and what it
leaves behind in the shared options object. -/
def resolveExpiration (declared shared : Option Int) : Option Int :=
  let v : Option Int := match declared with | some d => some d | none => shared
  match v with
  | none => none
  | some x => if x < 0 then none else some x

/-- The expiration value each job of a sequential run observes, in order;
`shared` is the value of `options.expiration` when the run starts. -/
def runJobs (shared : Option Int) : List (Option Int) → List (Option Int)
  | [] => []
  | d :: ds => resolveExpiration d shared :: runJobs (resolveExpiration d shared) ds

/-- The value of `options.expiration` after a list of jobs has run. -/
def sharedAfter (shared : Option Int) : List (Option Int) → Option Int
  | [] => shared
  | d :: ds => sharedAfter (resolveExpiration d shared) ds

/-- The most recently declared per-job expiration in a run prefix, else the
starting value. -/
def lastDecl (dflt : Option Int) : List (Option Int) → Option Int
  | [] => dflt
  | d :: ds => lastDecl (match d with | some x => some x | none => dflt) ds

/-- The coercion `if options.expiration < 0: options.expiration = None`
applied to a value. -/
def pyCoerce : Option Int → Option Int
  | none => none
  | some x => if x < 0 then none else some x

/-- The shared run configuration: the fields of the process-wide `options`
object as declared by the `OptionParser` in `runTests` (lines 751–764).
The additional remote attributes set before the run starts
(`remote_run_directory` is modelled; the `remote` dictionary and the open
`ssh` connection are opaque collaborator handles never reassigned after
startup) complete the object read by every component during a run. -/
structure Options where
  interactive : Bool
  time : Bool
  precompileCode : Bool
  useExistingBinaries : Bool
  useExistingResults : Bool
  relPathToUserSub : Str
  abaqusCmd : Str
  keepExistingOutputFile : Bool
  cpus : Int
  host : Str
  verbose : Bool
  double : Bool
  doNotSave : Bool
  expiration : Option Int
  remote_run_directory : Str

/-- The only assignments to the shared options object a job performs during
a run (`TestCase.runTest` lines 333–338, repeated verbatim in the parametric
test body at lines 624–629):

    para = __import__(jobName + '_expected').parameters
    if "expiration" in para:
        options.expiration = para["expiration"]
    if options.expiration < 0:
        options.expiration = None

Their net effect is `expiration := resolveExpiration declared expiration`;
no other field is assigned. -/
def applyExpirationOverride (declared : Option Int) (opts : Options) : Options :=
  { opts with expiration := resolveExpiration declared opts.expiration }

/-! ## Theorems -/

/-- Helper: the scalar closeness check with a nonnegative numeric tolerance
passes exactly on `|computed - reference| ≤ tolerance`.  (For a negative
tolerance the `first == second` shortcut of `assertAlmostEqual` would still
pass equal values.) -/
theorem scalar_tol_iff (c r t : ℚ) (ht : 0 ≤ t) :
    checkRecord ⟨.num c, some (.num r), some (.num t)⟩ = .ok () ↔ |c - r| ≤ t := by
  show assertAlmostEqualDelta (.num c) (.num r) (.num t) = .ok () ↔ _
  by_cases h : c = r
  · subst h
    simp [assertAlmostEqualDelta, pyEq, sub_self, abs_zero, ht]
  · simp only [assertAlmostEqualDelta, pyEq, pyLeQ]
    rw [if_neg (by simpa using h)]
    by_cases h2 : |c - r| ≤ t
    · simp [h2]
    · simp [h2]

/-- Helper: the scalar exact-equality check. -/
theorem scalar_ref_iff (c r : ℚ) :
    checkRecord ⟨.num c, some (.num r), none⟩ = .ok () ↔ c = r := by
  show assertEqualVal (.num c) (.num r) = .ok () ↔ _
  by_cases h : c = r
  · simp [assertEqualVal, pyEq, h]
  · simp [assertEqualVal, pyEq, h]

/-- C1: for a scalar result record with numeric reference value and
(nonnegative) numeric tolerance, the comparator passes exactly when
`|computedValue - referenceValue| ≤ tolerance`; in particular it passes when
the absolute difference equals the tolerance and fails as soon as it exceeds
it. -/
theorem c1_scalar_closeness_boundary :
    ∀ c r t : ℚ, 0 ≤ t →
      (checkRecord ⟨.num c, some (.num r), some (.num t)⟩ = .ok () ↔ |c - r| ≤ t) :=
  fun c r t ht => scalar_tol_iff c r t ht

/-- Witness for C1 at the spec's scenario: reference `17100.0`, tolerance
`1.0`, computed `17100.4` passes. -/
theorem c1_scalar_closeness_boundary_witness :
    0 ≤ (1 : ℚ) ∧
      checkRecord ⟨.num 17100.4, some (.num 17100), some (.num 1)⟩ = .ok () :=
  ⟨by norm_num,
   (c1_scalar_closeness_boundary 17100.4 17100 1 (by norm_num)).mpr (by norm_num [abs_le])⟩

/-- C2: for a scalar computed value the comparator branches on the fields
present: with a (nonnegative numeric) tolerance it applies the closeness
check against the reference value; with only a reference value it requires
exact equality; with neither field it passes without any numeric check. -/
theorem c2_scalar_branch_behavior :
    (∀ c r t : ℚ, 0 ≤ t →
      (checkRecord ⟨.num c, some (.num r), some (.num t)⟩ = .ok () ↔ |c - r| ≤ t))
    ∧ (∀ c r : ℚ, checkRecord ⟨.num c, some (.num r), none⟩ = .ok () ↔ c = r)
    ∧ (∀ c : ℚ, checkRecord ⟨.num c, none, none⟩ = .ok ()) :=
  ⟨fun c r t ht => scalar_tol_iff c r t ht, fun c r => scalar_ref_iff c r, fun _ => rfl⟩

/-- Witness for C2: a concrete instance of each branch, hypotheses
discharged at `t = 1`. -/
theorem c2_scalar_branch_behavior_witness :
    0 ≤ (1 : ℚ) ∧
      (checkRecord ⟨.num 3, some (.num 3), some (.num 1)⟩ = .ok () ↔ |(3 : ℚ) - 3| ≤ 1) ∧
      (checkRecord ⟨.num 3, some (.num 3), none⟩ = .ok () ↔ (3 : ℚ) = 3) ∧
      checkRecord ⟨.num 3, none, none⟩ = .ok () :=
  ⟨by norm_num, c2_scalar_branch_behavior.1 3 3 1 (by norm_num),
   c2_scalar_branch_behavior.2.1 3 3, c2_scalar_branch_behavior.2.2 3⟩

/-- C8: with no external assertion function and no structured results file
on disk, `_runAssertionsOnResults` fails with the `self.fail` message, and
that message contains the expected path of the missing results file. -/
theorem c8_missing_results_file_failure :
    ∀ cwd jobName : Str,
      runAssertionsOnResults cwd jobName none none =
        .error (.failure (some (missingResultsMsg
          (pathJoin (pathJoin cwd "testOutput".data) (jobName ++ "_results.py".data)))))
      ∧ pathJoin (pathJoin cwd "testOutput".data) (jobName ++ "_results.py".data) <:+:
          missingResultsMsg
            (pathJoin (pathJoin cwd "testOutput".data) (jobName ++ "_results.py".data)) := by
  intro cwd jobName
  refine ⟨rfl, ?_⟩
  exact ⟨"No results file provided by process_results.py. Looking for \"".data,
         "\"".data, rfl⟩

/-- C10 counterexample: a record whose computed value is an empty sequence
and which lacks both `referenceValue` and `tolerance` passes vacuously;
the per-element loop body never runs, so no lookup error is raised,
contradicting the claim for this record. -/
theorem c10_empty_sequence_vacuous_pass :
    checkRecord ⟨.list [], none, none⟩ = .ok () := rfl

/-- C10 (amended): for a record whose computed value is a sequence with at
least one element, the comparator reads `referenceValue` and `tolerance`
unconditionally: a missing `referenceValue` raises `KeyError`, and —
provided the reference value is itself indexable at the first element — a
missing `tolerance` raises `KeyError`, instead of a vacuous pass. -/
theorem c10_nonempty_sequence_lookup_error :
    ∀ (x : PyVal) (xs : List PyVal) (rv0 : PyVal) (rvs : List PyVal) (tol : Option PyVal),
      checkRecord ⟨.list (x :: xs), none, tol⟩ = .error (.keyError "referenceValue".data)
      ∧ checkRecord ⟨.list (x :: xs), some (.list (rv0 :: rvs)), none⟩ =
          .error (.keyError "tolerance".data) := by
  intro x xs rv0 rvs tol
  constructor
  · show checkSeqElems _ (List.range (xs.length + 1)) = _
    rw [List.range_succ_eq_map]
    simp [checkSeqElems, seqElemCheck, pyGetItem]
  · show checkSeqElems _ (List.range (xs.length + 1)) = _
    rw [List.range_succ_eq_map]
    cases rv0 <;> simp [checkSeqElems, seqElemCheck, pyGetItem]

/-- Helper: a line that does not start with the compile-phase begin marker
leaves `Compile_start` unchanged when processed successfully. -/
theorem processLine_compile_start (s : TimerState) (l : Str) (t : ℚ) (s' : TimerState)
    (rep : Option Report) (hl : ("Begin Linking".data.isPrefixOf l) = false)
    (h : processLine s l t = .ok (s', rep)) :
    s'.Compile_start = s.Compile_start := by
  unfold processLine at h
  rw [hl] at h
  simp only [Bool.false_eq_true, if_false] at h
  repeat' split at h
  all_goals cases h
  all_goals rfl

/-- Helper: a line that does not start with the packager-phase begin marker
leaves `packager_start` unchanged when processed successfully. -/
theorem processLine_packager_start (s : TimerState) (l : Str) (t : ℚ) (s' : TimerState)
    (rep : Option Report)
    (hl : ("Begin Abaqus/Explicit Packager".data.isPrefixOf l) = false)
    (h : processLine s l t = .ok (s', rep)) :
    s'.packager_start = s.packager_start := by
  unfold processLine at h
  rw [hl] at h
  simp only [Bool.false_eq_true, if_false] at h
  repeat' split at h
  all_goals cases h
  all_goals rfl

/-- Helper: a line that does not start with the solver-phase begin marker
leaves `solver_start` unchanged when processed successfully. -/
theorem processLine_solver_start (s : TimerState) (l : Str) (t : ℚ) (s' : TimerState)
    (rep : Option Report)
    (hl : ("Begin Abaqus/Explicit Analysis".data.isPrefixOf l) = false)
    (h : processLine s l t = .ok (s', rep)) :
    s'.solver_start = s.solver_start := by
  unfold processLine at h
  rw [hl] at h
  simp only [Bool.false_eq_true, if_false] at h
  repeat' split at h
  all_goals cases h
  all_goals rfl

/-- Helper: processing a stream without a given phase's begin marker leaves
that phase's start attribute where it started, for any state field `f`
whose per-line preservation is supplied by `hstep`. -/
theorem processLines_field_stable (f : TimerState → Option ℚ) (pat : Str)
    (hstep : ∀ (s : TimerState) (l : Str) (t : ℚ) (s' : TimerState) (rep : Option Report),
        (pat.isPrefixOf l) = false → processLine s l t = .ok (s', rep) → f s' = f s) :
    ∀ (lines : List (Str × ℚ)) (s0 s : TimerState) (reps : List Report),
      (∀ l ∈ lines.map Prod.fst, (pat.isPrefixOf l) = false) →
      processLines s0 lines = .ok (s, reps) →
      f s = f s0 := by
  intro lines
  induction lines with
  | nil =>
    intro s0 s reps _ hok
    unfold processLines at hok
    cases hok
    rfl
  | cons p rest ih =>
    intro s0 s reps hnb hok
    obtain ⟨l, t⟩ := p
    unfold processLines at hok
    cases hpl : processLine s0 l t with
    | error e => rw [hpl] at hok; cases hok
    | ok pr =>
      obtain ⟨s', rep⟩ := pr
      rw [hpl] at hok
      dsimp only at hok
      cases hrest : processLines s' rest with
      | error e => rw [hrest] at hok; cases hok
      | ok pr2 =>
        obtain ⟨s'', reps'⟩ := pr2
        rw [hrest] at hok
        dsimp only at hok
        injection hok with h1
        have hs : s'' = s := congrArg Prod.fst h1
        have h2 : f s = f s' := by
          rw [← hs]
          exact ih s' s'' reps' (fun l' hl' => hnb l' (by simp [hl'])) hrest
        rw [h2]
        exact hstep s0 l t s' rep (hnb l (by simp)) hpl

/-- Helper: the end-of-linking marker with `Compile_start` still unset makes
`processLine` raise `TypeError` (the source subtracts `None` from a float). -/
theorem end_linking_no_start (s : TimerState) (t : ℚ) (h : s.Compile_start = none) :
    processLine s "End Linking".data t = .error .typeError := by
  have h1 : ("Begin Linking".data.isPrefixOf "End Linking".data) = false := by decide
  have h2 : ("End Linking".data.isPrefixOf "End Linking".data) = true := by decide
  simp [processLine, h1, h2, h]

/-- Helper: the end-of-packaging marker with `packager_start` still unset
makes `processLine` raise `TypeError`. -/
theorem end_packager_no_start (s : TimerState) (t : ℚ) (h : s.packager_start = none) :
    processLine s "End Abaqus/Explicit Packager".data t = .error .typeError := by
  have h1 : ("Begin Linking".data.isPrefixOf "End Abaqus/Explicit Packager".data) = false := by
    decide
  have h2 : ("End Linking".data.isPrefixOf "End Abaqus/Explicit Packager".data) = false := by
    decide
  have h3 : ("Begin Abaqus/Explicit Packager".data.isPrefixOf
      "End Abaqus/Explicit Packager".data) = false := by decide
  have h4 : ("End Abaqus/Explicit Packager".data.isPrefixOf
      "End Abaqus/Explicit Packager".data) = true := by decide
  simp [processLine, h1, h2, h3, h4, h]

/-- Helper: the end-of-analysis marker with `solver_start` still unset makes
`processLine` raise `TypeError`. -/
theorem end_solver_no_start (s : TimerState) (t : ℚ) (h : s.solver_start = none) :
    processLine s "End Abaqus/Explicit Analysis".data t = .error .typeError := by
  have h1 : ("Begin Linking".data.isPrefixOf "End Abaqus/Explicit Analysis".data) = false := by
    decide
  have h2 : ("End Linking".data.isPrefixOf "End Abaqus/Explicit Analysis".data) = false := by
    decide
  have h3 : ("Begin Abaqus/Explicit Packager".data.isPrefixOf
      "End Abaqus/Explicit Analysis".data) = false := by decide
  have h4 : ("End Abaqus/Explicit Packager".data.isPrefixOf
      "End Abaqus/Explicit Analysis".data) = false := by decide
  have h5 : ("Begin Abaqus/Explicit Analysis".data.isPrefixOf
      "End Abaqus/Explicit Analysis".data) = false := by decide
  have h6 : ("End Abaqus/Explicit Analysis".data.isPrefixOf
      "End Abaqus/Explicit Analysis".data) = true := by decide
  simp [processLine, h1, h2, h3, h4, h5, h6, h]

/-- Helper: the analysis-error marker (which closes the solve phase like its
end marker does) with `solver_start` still unset makes `processLine` raise
`TypeError`. -/
theorem solver_error_marker_no_start (s : TimerState) (t : ℚ) (h : s.solver_start = none) :
    processLine s "Abaqus/Explicit Analysis exited with an error".data t =
      .error .typeError := by
  have h1 : ("Begin Linking".data.isPrefixOf
      "Abaqus/Explicit Analysis exited with an error".data) = false := by decide
  have h2 : ("End Linking".data.isPrefixOf
      "Abaqus/Explicit Analysis exited with an error".data) = false := by decide
  have h3 : ("Begin Abaqus/Explicit Packager".data.isPrefixOf
      "Abaqus/Explicit Analysis exited with an error".data) = false := by decide
  have h4 : ("End Abaqus/Explicit Packager".data.isPrefixOf
      "Abaqus/Explicit Analysis exited with an error".data) = false := by decide
  have h5 : ("Begin Abaqus/Explicit Analysis".data.isPrefixOf
      "Abaqus/Explicit Analysis exited with an error".data) = false := by decide
  have h6 : containsSub "Abaqus/Explicit Analysis exited with an error".data
      "Abaqus/Explicit Analysis exited with an error".data = true := by decide
  simp [processLine, h1, h2, h3, h4, h5, h6, h]

/-- C3 counterexample: feeding the compile-phase end marker to a fresh timer
(no begin marker processed) raises `TypeError` — the claim's "does not raise
an error" is false on the code. -/
theorem c3_end_marker_without_start_raises :
    processLine initTimer "End Linking".data 7 = .error .typeError :=
  end_linking_no_start initTimer 7 rfl

/-- C3 (amended): for every line stream processed from a fresh timer without
raising, each of the three phase tracks is independent: if no line of the
stream starts with a given phase's begin marker, then that phase's end
marker — for the solve phase also the analysis-error marker — produces no
duration report and raises `TypeError` (the subtraction `end - start` is
attempted with the start attribute still unset). -/
theorem c3_end_marker_without_start_behavior :
    ∀ (prior : List (Str × ℚ)) (s : TimerState) (reps : List Report) (t : ℚ),
      processLines initTimer prior = .ok (s, reps) →
      ((∀ l ∈ prior.map Prod.fst, ("Begin Linking".data.isPrefixOf l) = false) →
          processLine s "End Linking".data t = .error .typeError)
      ∧ ((∀ l ∈ prior.map Prod.fst,
            ("Begin Abaqus/Explicit Packager".data.isPrefixOf l) = false) →
          processLine s "End Abaqus/Explicit Packager".data t = .error .typeError)
      ∧ ((∀ l ∈ prior.map Prod.fst,
            ("Begin Abaqus/Explicit Analysis".data.isPrefixOf l) = false) →
          processLine s "End Abaqus/Explicit Analysis".data t = .error .typeError
          ∧ processLine s "Abaqus/Explicit Analysis exited with an error".data t =
              .error .typeError) := by
  intro prior s reps t hok
  refine ⟨fun hnb => ?_, fun hnb => ?_, fun hnb => ?_⟩
  · have hcs := processLines_field_stable (fun st => st.Compile_start) "Begin Linking".data
      (fun s l t s' rep hl h => processLine_compile_start s l t s' rep hl h)
      prior initTimer s reps hnb hok
    exact end_linking_no_start s t (by simpa using hcs)
  · have hps := processLines_field_stable (fun st => st.packager_start)
      "Begin Abaqus/Explicit Packager".data
      (fun s l t s' rep hl h => processLine_packager_start s l t s' rep hl h)
      prior initTimer s reps hnb hok
    exact end_packager_no_start s t (by simpa using hps)
  · have hss := processLines_field_stable (fun st => st.solver_start)
      "Begin Abaqus/Explicit Analysis".data
      (fun s l t s' rep hl h => processLine_solver_start s l t s' rep hl h)
      prior initTimer s reps hnb hok
    exact ⟨end_solver_no_start s t (by simpa using hss),
           solver_error_marker_no_start s t (by simpa using hss)⟩

/-- Witness for C3's amended theorem at the empty prior stream, exercising
all three phase tracks (and the solve phase's error marker). -/
theorem c3_end_marker_without_start_behavior_witness :
    processLines initTimer [] = .ok (initTimer, []) ∧
      (∀ l ∈ (([] : List (Str × ℚ)).map Prod.fst), ("Begin Linking".data.isPrefixOf l) = false) ∧
      processLine initTimer "End Linking".data 3 = .error .typeError ∧
      processLine initTimer "End Abaqus/Explicit Packager".data 3 = .error .typeError ∧
      processLine initTimer "End Abaqus/Explicit Analysis".data 3 = .error .typeError ∧
      processLine initTimer "Abaqus/Explicit Analysis exited with an error".data 3 =
        .error .typeError :=
  ⟨rfl, by simp,
   (c3_end_marker_without_start_behavior [] initTimer [] 3 rfl).1 (by simp),
   (c3_end_marker_without_start_behavior [] initTimer [] 3 rfl).2.1 (by simp),
   ((c3_end_marker_without_start_behavior [] initTimer [] 3 rfl).2.2 (by simp)).1,
   ((c3_end_marker_without_start_behavior [] initTimer [] 3 rfl).2.2 (by simp)).2⟩

/-- Helper: consuming a delimiter-free chunk `a` followed by a one-character
delimiter yields the accumulated line and restarts the streamer on the
remainder. -/
theorem streamAux_append_delim (d : Char) (hd : d = '\n' ∨ d = '\r') :
    ∀ (a out b : Str), (∀ c ∈ a, c ≠ '\n' ∧ c ≠ '\r') →
      streamAux out (a ++ d :: b) = (out ++ a) :: streamLines b := by
  intro a
  induction a with
  | nil =>
    intro out b _
    simp [streamAux, hd, streamLines]
  | cons c a' ih =>
    intro out b hnd
    have hc := hnd c (by simp)
    simp only [List.cons_append, streamAux, hc.1, hc.2, or_self, if_false]
    rw [List.append_eq, ih (out ++ [c]) b (fun x hx => hnd x (by simp [hx]))]
    simp

/-- C9 counterexample: on the stream `a\r\nb` from a terminated process, the
streamer yields `["a", "", "b"]` — the `\r\n` pair produces an extra empty
line — while the spec's splitting (in which `\r\n` is a single delimiter)
yields `["a", "b"]`. -/
theorem c9_crlf_extra_empty_line :
    streamLines "a\r\nb".data = ["a".data, [], "b".data]
    ∧ splitLinesSpec "a\r\nb".data = ["a".data, "b".data]
    ∧ streamLines "a\r\nb".data ≠ splitLinesSpec "a\r\nb".data := by
  refine ⟨rfl, rfl, ?_⟩
  decide

/-- C9 (amended): the streamer treats each single `\n` or `\r` character as
a line delimiter, so a `\r\n` pair terminates one line and then yields one
extra empty line; single `\n` and single `\r` each terminate exactly one
line, and the streamer terminates once no bytes remain. -/
theorem c9_single_char_delimiters :
    ∀ (a b : Str), (∀ c ∈ a, c ≠ '\n' ∧ c ≠ '\r') →
      streamLines (a ++ '\r' :: '\n' :: b) = a :: [] :: streamLines b
      ∧ streamLines (a ++ '\n' :: b) = a :: streamLines b
      ∧ streamLines (a ++ '\r' :: b) = a :: streamLines b := by
  intro a b hnd
  have hmain : ∀ (d : Char), d = '\n' ∨ d = '\r' → ∀ b' : Str,
      streamLines (a ++ d :: b') = a :: streamLines b' := by
    intro d hd b'
    have hne : (a ++ d :: b').isEmpty = false := by
      cases a <;> simp
    rw [streamLines, hne]
    simp only [Bool.false_eq_true, if_false]
    rw [streamAux_append_delim d hd a [] b' hnd]
    simp
  have hlf : streamLines ('\n' :: b) = [] :: streamLines b := by
    rw [streamLines]
    simp [streamAux, streamLines]
  refine ⟨?_, hmain '\n' (Or.inl rfl) b, hmain '\r' (Or.inr rfl) b⟩
  rw [hmain '\r' (Or.inr rfl) ('\n' :: b), hlf]

/-- Witness for C9's amended theorem at `a = "x"`, `b = "y"`. -/
theorem c9_single_char_delimiters_witness :
    (∀ c ∈ "x".data, c ≠ '\n' ∧ c ≠ '\r') ∧
      (streamLines ("x".data ++ '\r' :: '\n' :: "y".data) = "x".data :: [] :: streamLines "y".data
      ∧ streamLines ("x".data ++ '\n' :: "y".data) = "x".data :: streamLines "y".data
      ∧ streamLines ("x".data ++ '\r' :: "y".data) = "x".data :: streamLines "y".data) :=
  ⟨by decide, c9_single_char_delimiters "x".data "y".data (by decide)⟩

/-- Helper: the number of generated combinations is the product of the
domain sizes. -/
theorem testCombos_length : ∀ ps : List (Str × List Str),
    (testCombos ps).length = (ps.map (fun p => p.2.length)).prod := by
  intro ps
  induction ps with
  | nil => rfl
  | cons p ps ih =>
    obtain ⟨k, d⟩ := p
    have h1 : ∀ (l : List Str) (n : ℕ), (l.map (fun _ => n)).sum = l.length * n := by
      intro l n
      induction l with
      | nil => simp
      | cons x l ihl => simp [ihl, Nat.succ_mul, Nat.add_comm]
    simp only [testCombos, List.length_flatten, List.map_map, List.map_cons, List.prod_cons]
    have h2 : (List.length ∘ fun v : Str => List.map (fun c => (k, v) :: c) (testCombos ps)) =
        fun _ : Str => (testCombos ps).length := by
      funext v
      simp
    rw [h2, h1, ih]

/-- Helper: a member of a list is an infix of the underscore-join of the
list. -/
theorem mem_infix_joinU : ∀ (l : List Str) (x : Str), x ∈ l → x <:+: joinU l := by
  intro l
  induction l with
  | nil => intro x hx; cases hx
  | cons y l ih =>
    intro x hx
    cases l with
    | nil =>
      simp only [List.mem_singleton] at hx
      subst hx
      exact List.infix_rfl
    | cons z l' =>
      rcases List.mem_cons.mp hx with rfl | hx'
      · exact ⟨[], '_' :: joinU (z :: l'), by simp [joinU]⟩
      · exact (ih x hx').trans ⟨y ++ ['_'], [], by simp [joinU]⟩

/-- C4 counterexample: base name `b`, one parameter `a` with domain
`[1.2, 12]` — period stripping makes the two generated names identical
(`b_a_12` twice), so the generator does not produce two distinct names; and
no generated name contains a `key=value` token (the separator in a name is
an underscore). -/
theorem c4_names_collide_after_period_strip :
    (genTestCaseNames "b".data [("a".data, ["1.2".data, "12".data])]).length = 2
    ∧ (genTestCaseNames "b".data [("a".data, ["1.2".data, "12".data])]).dedup.length = 1
    ∧ ∀ n ∈ genTestCaseNames "b".data [("a".data, ["1.2".data, "12".data])],
        containsSub "a=1.2".data n = false ∧ containsSub "a=12".data n = false := by
  decide

/-- C4 (amended): the generator produces exactly `|D1| × … × |Dn|` test
cases — counted with multiplicity, since names may collide after period
stripping — and each generated name contains, for every `(key, value)` pair
of its combination, the token `key_value` with periods removed as a
substring of the part appended to the base name. -/
theorem c4_matrix_size_and_tokens :
    ∀ (base : Str) (params : List (Str × List Str)),
      (genTestCaseNames base params).length = (params.map (fun p => p.2.length)).prod
      ∧ ∀ combo ∈ testCombos params, ∀ kv ∈ combo,
          (tokenKV kv).filter (fun c => c ≠ '.') <:+: caseName base combo := by
  intro base params
  constructor
  · rw [genTestCaseNames, List.length_map]
    exact testCombos_length params
  · intro combo _ kv hkv
    have h1 : tokenKV kv <:+: joinU (combo.map tokenKV) :=
      mem_infix_joinU _ _ (List.mem_map_of_mem tokenKV hkv)
    have h2 := h1.filter (fun c => c ≠ '.')
    exact h2.trans ⟨base ++ ['_'], [], by simp [caseName]⟩

/-- Witness for C4's amended theorem at one concrete combination. -/
theorem c4_matrix_size_and_tokens_witness :
    ([("a".data, "7".data)] ∈ testCombos [("a".data, ["7".data])])
    ∧ (("a".data, "7".data) ∈ [("a".data, "7".data)])
    ∧ (tokenKV ("a".data, "7".data)).filter (fun c => c ≠ '.') <:+:
        caseName "b".data [("a".data, "7".data)] :=
  ⟨by decide, by decide,
   (c4_matrix_size_and_tokens "b".data [("a".data, ["7".data])]).2
     [("a".data, "7".data)] (by decide) ("a".data, "7".data) (by decide)⟩

/-- C5: for one parameter, the substitution loop rewrites exactly the first
matching line — everything from the first `=` on that line is replaced by
`= value` and a newline — and leaves every other line, including later
matching lines, unchanged; when no line matches, the data is unchanged. -/
theorem c5_first_match_substitution :
    (∀ (p v : Str) (pre : List Str) (l : Str) (post : List Str),
        (∀ l' ∈ pre, lineMatches p l' = false) → lineMatches p l = true →
        substituteParam p v (pre ++ l :: post) = pre ++ rewriteLine l v :: post)
    ∧ (∀ (p v : Str) (lines : List Str),
        (∀ l ∈ lines, lineMatches p l = false) →
        substituteParam p v lines = lines) := by
  constructor
  · intro p v pre
    induction pre with
    | nil =>
      intro l post _ hm
      simp [substituteParam, hm]
    | cons x pre' ih =>
      intro l post hpre hm
      have hx : lineMatches p x = false := hpre x (by simp)
      simp [substituteParam, hx, ih l post (fun l' hl' => hpre l' (by simp [hl'])) hm]
  · intro p v lines
    induction lines with
    | nil => intro _; rfl
    | cons x ls ih =>
      intro hn
      have hx : lineMatches p x = false := hn x (by simp)
      simp [substituteParam, hx, ih (fun l hl => hn l (by simp [hl]))]

/-- Witness for C5 on a three-line template in which the parameter occurs on
two lines: only the first occurrence is rewritten. -/
theorem c5_first_match_substitution_witness :
    (∀ l' ∈ ["x\n".data], lineMatches "alpha".data l' = false)
    ∧ lineMatches "alpha".data "alpha = 1\n".data = true
    ∧ substituteParam "alpha".data "7".data
        (["x\n".data] ++ "alpha = 1\n".data :: ["alpha = 2\n".data]) =
      ["x\n".data] ++ rewriteLine "alpha = 1\n".data "7".data :: ["alpha = 2\n".data] :=
  ⟨by decide, by decide,
   c5_first_match_substitution.1 "alpha".data "7".data ["x\n".data]
     "alpha = 1\n".data ["alpha = 2\n".data] (by decide) (by decide)⟩

/-- C6: evaluation of the code at the failing input.  In the
`pythonScriptForModel` case, when the model-generation script fails to
produce `<jobName>.inp`, the `finally` block's first
`os.remove(jobName + '.inp')` raises `OSError`, the remaining removals are
skipped, and the synthesized `<jobName>_expected.py` and `<jobName>.py`
remain on disk — contrary to the unconditional-cleanup claim. -/
theorem c6_cleanup_chain_aborts_eval :
    runParametricTest true false =
      ({ inp := false, expected := true, script := true }, some PyErr.osError) := rfl

/-- C7 counterexample: run default `-1` (no limit); job 1 declares
expiration `50`, job 2 declares none.  Job 2 observes `50` — the override
leaked through the shared options object — whereas resolving job 2 against
the run default alone yields no limit. -/
theorem c7_expiration_override_leaks :
    runJobs (some (-1)) [some 50, none] = [some 50, some 50]
    ∧ resolveExpiration none (some (-1)) = none := by
  decide

theorem pyCoerce_idem : ∀ v : Option Int, pyCoerce (pyCoerce v) = pyCoerce v := by
  intro v
  cases v with
  | none => rfl
  | some x =>
    by_cases h : x < 0 <;> simp [pyCoerce, h]

theorem resolveExpiration_none_arg (s : Option Int) :
    resolveExpiration none s = pyCoerce s := by
  cases s <;> rfl

/-- Helper: coercion-equal starting values give coercion-equal last
declared values. -/
theorem lastDecl_congr : ∀ (ds : List (Option Int)) (a b : Option Int),
    pyCoerce a = pyCoerce b →
    pyCoerce (lastDecl a ds) = pyCoerce (lastDecl b ds) := by
  intro ds
  induction ds with
  | nil => intro a b h; exact h
  | cons e ds ih =>
    intro a b h
    cases e with
    | some x => rfl
    | none => exact ih a b h

/-- Helper: the shared `options.expiration` a declaration-free job observes
after a run prefix is the coercion of the most recently declared override
(or of the starting value). -/
theorem sharedAfter_lastDecl : ∀ (ds : List (Option Int)) (s : Option Int),
    resolveExpiration none (sharedAfter s ds) = pyCoerce (lastDecl s ds) := by
  intro ds
  induction ds with
  | nil => intro s; exact resolveExpiration_none_arg s
  | cons d ds ih =>
    intro s
    rw [sharedAfter, ih (resolveExpiration d s)]
    apply lastDecl_congr
    cases d with
    | some x => exact pyCoerce_idem (some x)
    | none =>
      rw [resolveExpiration_none_arg]
      exact pyCoerce_idem s

theorem runJobs_append : ∀ (xs ys : List (Option Int)) (s : Option Int),
    runJobs s (xs ++ ys) = runJobs s xs ++ runJobs (sharedAfter s xs) ys := by
  intro xs
  induction xs with
  | nil => intro ys s; rfl
  | cons d xs ih => intro ys s; simp [runJobs, sharedAfter, ih]

/-- C7 (amended): the override is written back into the shared options
object and leaks — a job that declares no expiration observes the coercion
of the most recently declared override of any earlier job in the run
(falling back to the run-wide starting value only when no earlier job
declared one), not the run-wide default.  No other field of the shared run
configuration is mutated during a run: the per-job step assigns only
`options.expiration` (and does so with the job's resolved value), leaving
every other field of the options object unchanged. -/
theorem c7_expiration_observed_value :
    (∀ (dflt : Option Int) (pre : List (Option Int)),
        (runJobs dflt (pre ++ [none])).getLast? = some (pyCoerce (lastDecl dflt pre)))
    ∧ (∀ (declared : Option Int) (opts : Options),
        (applyExpirationOverride declared opts).expiration =
            resolveExpiration declared opts.expiration
        ∧ (applyExpirationOverride declared opts).interactive = opts.interactive
        ∧ (applyExpirationOverride declared opts).time = opts.time
        ∧ (applyExpirationOverride declared opts).precompileCode = opts.precompileCode
        ∧ (applyExpirationOverride declared opts).useExistingBinaries = opts.useExistingBinaries
        ∧ (applyExpirationOverride declared opts).useExistingResults = opts.useExistingResults
        ∧ (applyExpirationOverride declared opts).relPathToUserSub = opts.relPathToUserSub
        ∧ (applyExpirationOverride declared opts).abaqusCmd = opts.abaqusCmd
        ∧ (applyExpirationOverride declared opts).keepExistingOutputFile =
            opts.keepExistingOutputFile
        ∧ (applyExpirationOverride declared opts).cpus = opts.cpus
        ∧ (applyExpirationOverride declared opts).host = opts.host
        ∧ (applyExpirationOverride declared opts).verbose = opts.verbose
        ∧ (applyExpirationOverride declared opts).double = opts.double
        ∧ (applyExpirationOverride declared opts).doNotSave = opts.doNotSave
        ∧ (applyExpirationOverride declared opts).remote_run_directory =
            opts.remote_run_directory) := by
  constructor
  · intro dflt pre
    rw [runJobs_append]
    show (runJobs dflt pre ++ [resolveExpiration none (sharedAfter dflt pre)]).getLast? = _
    rw [List.getLast?_concat, sharedAfter_lastDecl]
  · intro declared opts
    exact ⟨rfl, rfl, rfl, rfl, rfl, rfl, rfl, rfl, rfl, rfl, rfl, rfl, rfl, rfl, rfl⟩

end Abaverify
